import Mathlib

/-!
Verification of the totp-cgi PostgreSQL backend (src/totpcgi/backends/pgsql.py).

The embedding models the backing store as explicit tables of rows, a server
holding the committed database together with the session-level advisory-lock
table, and per-connection open transactions as a working copy of the database
that becomes visible to other sessions only at commit.  Each backend method is
translated statement by statement from the source; SQL statements become pure
functions on the database value.  Store failures (connection loss, statement
errors) are modelled by an optional failure-injection index identifying the
statement at which execution aborts.
-/

namespace TotpCgi

/-- Modelled from the spec: the class totpcgi.GAUserState is not under src/;
per section 3 an AuthHistory is the per-user replay ledger of success
timestamps, fail timestamps and used scratch tokens, empty on first access.
The pgsql backend appends to these three sequences when loading. -/
structure GAUserState where
  fail_timestamps : List Int := []
  success_timestamps : List Int := []
  used_scratch_tokens : List String := []
deriving Repr, DecidableEq

/-- Modelled from the spec: the class totpcgi.GAUserSecret is not under src/;
per section 3 a UserSecret carries the OTP secret, an optional rate limit
(present only when configured), an optional verification window size, and the
pool of still-valid scratch tokens.  Absent optional fields mean the policy is
unconfigured, not zeroed. -/
structure GAUserSecret where
  secret : String
  rate_limit : Option (Int × Int) := none
  window_size : Option Int := none
  scratch_tokens : List String := []
deriving Repr, DecidableEq

/-- A row of the secrets table: secret plus the three nullable policy columns
(rate_limit_times, rate_limit_seconds, window_size). -/
structure SecretsRow where
  secret : String
  rate_limit_times : Option Int := none
  rate_limit_seconds : Option Int := none
  window_size : Option Int := none
deriving Repr, DecidableEq

/-- The logical database of section 6: users(userid, username),
timestamps(userid, success, timestamp), used_scratch_tokens(userid, token),
secrets, scratch_tokens (the still-valid pool) and pincodes(userid, hash).
Tables are row lists in insertion order; nextUserId models the serial
userid sequence. -/
structure DB where
  users : List (Nat × String) := []
  nextUserId : Nat := 1
  timestamps : List (Nat × Bool × Int) := []
  used_scratch_tokens : List (Nat × String) := []
  secrets : List (Nat × SecretsRow) := []
  scratch_tokens : List (Nat × String) := []
  pincodes : List (Nat × String) := []
deriving Repr, DecidableEq

/-- The shared store instance: the committed database plus the advisory-lock
table.  An entry (key, sid) records that session sid holds the session-level
advisory lock on key; the list is a multiset because pg_advisory_lock is
reentrant for the holding session. -/
structure Server where
  db : DB
  advLocks : List (Nat × Nat) := []
deriving Repr, DecidableEq

/-- One store connection: its session id and, when a transaction is open, the
session's working copy of the database.  Uncommitted writes live in txn and
are invisible to other sessions until commit publishes them. -/
structure SessionConn where
  sid : Nat
  txn : Option DB := none
deriving Repr, DecidableEq

/-- The database a statement of this connection operates on: the open
transaction's working copy, or the committed database when none is open. -/
def workingDb (srv : Server) (c : SessionConn) : DB :=
  c.txn.getD srv.db

/-- GAStateBackend instance state (pgsql.py lines 36-43): its connection and
the session-local lock map self.locks from username to userid. -/
structure GAStateBackend where
  conn : SessionConn
  locks : List (String × Nat) := []
deriving Repr, DecidableEq

/-- The error kinds raised by the backend.  UserStateError is the source's
realization of the spec's LockNotHeldError; UserPincodeError realizes
NoPincodeRecordError; StoreUnavailable models a store/transport failure at
the numbered statement. -/
inductive TotpError where
  | UserStateError (msg : String)
  | UserNotFound (msg : String)
  | UserPincodeError (msg : String)
  | StoreUnavailable (stmt : Nat)
deriving Repr, DecidableEq

/-- SELECT userid FROM users WHERE username = user (fetchone). -/
def selectUserid (d : DB) (user : String) : Option Nat :=
  (d.users.find? (fun r => r.2 == user)).map (fun r => r.1)

/-- INSERT INTO users (username) VALUES (user); the serial column assigns
nextUserId. -/
def insertUser (d : DB) (user : String) : DB :=
  { d with users := d.users ++ [(d.nextUserId, user)],
           nextUserId := d.nextUserId + 1 }

/-- SELECT timestamp, success FROM timestamps WHERE userid = uid, in table
order. -/
def selectTimestamps (d : DB) (uid : Nat) : List (Int × Bool) :=
  (d.timestamps.filter (fun r => r.1 == uid)).map (fun r => (r.2.2, r.2.1))

/-- SELECT token FROM used_scratch_tokens WHERE userid = uid, in table
order. -/
def selectUsedTokens (d : DB) (uid : Nat) : List String :=
  (d.used_scratch_tokens.filter (fun r => r.1 == uid)).map (fun r => r.2)

/-- True when session sid may take the advisory lock on key now: every holder
of key is sid itself (pg_advisory_lock is reentrant; otherwise the call
blocks). -/
def canLock (srv : Server) (key sid : Nat) : Bool :=
  srv.advLocks.all (fun e => e.1 != key || e.2 == sid)

/-- SELECT pg_advisory_lock(key) by session sid, once it can proceed. -/
def advisoryLock (srv : Server) (key sid : Nat) : Server :=
  { srv with advLocks := (key, sid) :: srv.advLocks }

/-- SELECT pg_advisory_unlock(key) by session sid: releases one held instance
of the lock; a no-op (warning only) when sid does not hold key. -/
def advisoryUnlock (srv : Server) (key sid : Nat) : Server :=
  { srv with advLocks := srv.advLocks.eraseP (fun e => e.1 == key && e.2 == sid) }

/-- Lookup in the session-local lock map self.locks. -/
def locksLookup (l : List (String × Nat)) (user : String) : Option Nat :=
  (l.find? (fun e => e.1 == user)).map (fun e => e.2)

/-- self.locks[user] = userid. -/
def locksInsert (l : List (String × Nat)) (user : String) (uid : Nat) :
    List (String × Nat) :=
  (user, uid) :: l.filter (fun e => e.1 != user)

/-- del self.locks[user]. -/
def locksErase (l : List (String × Nat)) (user : String) : List (String × Nat) :=
  l.filter (fun e => e.1 != user)

/-- One iteration of the timestamp-loading loop (pgsql.py lines 69-73):
append the timestamp to the success or fail sequence according to the
success flag of the row (timestamp, success). -/
def readTimestampRow (st : GAUserState) (row : Int × Bool) : GAUserState :=
  if row.2 then
    { st with success_timestamps := st.success_timestamps ++ [row.1] }
  else
    { st with fail_timestamps := st.fail_timestamps ++ [row.1] }

/-- The timestamp-loading loop over all fetched rows. -/
def readTimestampRows (st : GAUserState) (rows : List (Int × Bool)) : GAUserState :=
  rows.foldl readTimestampRow st

/-- The used-scratch-token loading loop (pgsql.py lines 80-81). -/
def readTokenRows (st : GAUserState) (toks : List String) : GAUserState :=
  toks.foldl
    (fun st t => { st with used_scratch_tokens := st.used_scratch_tokens ++ [t] }) st

/-- GAStateBackend.get_user_state (pgsql.py lines 45-97): look up the userid
for the username, creating the identity when absent; take the advisory lock
on the userid; record the userid in self.locks; load and return the history
(empty for a just-created identity).  The result is none when the advisory
lock is held by another session (the call blocks).  The statements leave the
transaction open: reads and the identity insert live in the connection's
working copy until a later commit. -/
def get_user_state (srv : Server) (b : GAStateBackend) (user : String) :
    Option (Server × GAStateBackend × GAUserState) :=
  let d := workingDb srv b.conn
  match selectUserid d user with
  | some uid =>
    if canLock srv uid b.conn.sid then
      let st := readTimestampRows {} (selectTimestamps d uid)
      let st := readTokenRows st (selectUsedTokens d uid)
      some (advisoryLock srv uid b.conn.sid,
            { conn := { b.conn with txn := some d },
              locks := locksInsert b.locks user uid },
            st)
    else none
  | none =>
    let d := insertUser d user
    match selectUserid d user with
    | some uid =>
      if canLock srv uid b.conn.sid then
        some (advisoryLock srv uid b.conn.sid,
              { conn := { b.conn with txn := some d },
                locks := locksInsert b.locks user uid },
              {})
      else none
    | none => none

/-- DELETE FROM timestamps WHERE userid = uid. -/
def deleteTimestamps (d : DB) (uid : Nat) : DB :=
  { d with timestamps := d.timestamps.filter (fun r => r.1 != uid) }

/-- DELETE FROM used_scratch_tokens WHERE userid = uid. -/
def deleteUsedTokens (d : DB) (uid : Nat) : DB :=
  { d with used_scratch_tokens := d.used_scratch_tokens.filter (fun r => r.1 != uid) }

/-- INSERT INTO timestamps (userid, success, timestamp) VALUES (...). -/
def insertTimestamp (d : DB) (uid : Nat) (success : Bool) (ts : Int) : DB :=
  { d with timestamps := d.timestamps ++ [(uid, success, ts)] }

/-- INSERT INTO used_scratch_tokens (userid, token) VALUES (...). -/
def insertUsedToken (d : DB) (uid : Nat) (token : String) : DB :=
  { d with used_scratch_tokens := d.used_scratch_tokens ++ [(uid, token)] }

/-- The statement sequence of GAStateBackend.update_user_state after the lock
check (pgsql.py lines 107-128), through the advisory unlock but before
conn.commit().  Statements are numbered 0 = DELETE timestamps, 1 = DELETE
used_scratch_tokens, 2 = fail-timestamp inserts, 3 = success-timestamp
inserts, 4 = used-token inserts, 5 = pg_advisory_unlock; failAt injects a
store failure in place of the numbered statement, leaving the transaction
aborted with nothing committed and the advisory lock still held.  On success
the uncommitted replacement lives in the returned connection's txn. -/
def update_user_state_work (failAt : Option Nat) (srv : Server) (c : SessionConn)
    (uid : Nat) (state : GAUserState) : Server × SessionConn × Option TotpError :=
  if failAt = some 0 then (srv, c, some (.StoreUnavailable 0)) else
  let d := deleteTimestamps (workingDb srv c) uid
  if failAt = some 1 then (srv, { c with txn := some d }, some (.StoreUnavailable 1)) else
  let d := deleteUsedTokens d uid
  if failAt = some 2 then (srv, { c with txn := some d }, some (.StoreUnavailable 2)) else
  let d := state.fail_timestamps.foldl (fun d ts => insertTimestamp d uid false ts) d
  if failAt = some 3 then (srv, { c with txn := some d }, some (.StoreUnavailable 3)) else
  let d := state.success_timestamps.foldl (fun d ts => insertTimestamp d uid true ts) d
  if failAt = some 4 then (srv, { c with txn := some d }, some (.StoreUnavailable 4)) else
  let d := state.used_scratch_tokens.foldl (fun d t => insertUsedToken d uid t) d
  if failAt = some 5 then (srv, { c with txn := some d }, some (.StoreUnavailable 5)) else
  (advisoryUnlock srv uid c.sid, { c with txn := some d }, none)

/-- GAStateBackend.update_user_state (pgsql.py lines 99-132) with failure
injection: raise UserStateError when the username is not in self.locks;
otherwise run the delete-and-reinsert statements and the advisory unlock,
then conn.commit() (statement 6) publishes the working copy, and the lock
map entry is deleted.  On any injected failure the exception propagates with
the committed database unchanged and self.locks untouched. -/
def update_user_state_run (failAt : Option Nat) (srv : Server) (b : GAStateBackend)
    (user : String) (state : GAUserState) :
    Server × GAStateBackend × Option TotpError :=
  match locksLookup b.locks user with
  | none =>
    (srv, b, some (.UserStateError (user ++ "\x27s pg lock has gone away!")))
  | some uid =>
    match update_user_state_work failAt srv b.conn uid state with
    | (srv1, c1, some e) => (srv1, { b with conn := c1 }, some e)
    | (srv1, c1, none) =>
      if failAt = some 6 then
        (srv1, { b with conn := c1 }, some (.StoreUnavailable 6))
      else
        ({ srv1 with db := workingDb srv1 c1 },
         { conn := { c1 with txn := none }, locks := locksErase b.locks user },
         none)

/-- GAStateBackend.update_user_state on a healthy store (no injected
failure). -/
def update_user_state (srv : Server) (b : GAStateBackend) (user : String)
    (state : GAUserState) : Server × GAStateBackend × Option TotpError :=
  update_user_state_run none srv b user state

/-- DELETE FROM users WHERE username = user with the schema's cascade: every
row of every dependent table whose userid belongs to the username is deleted
with the identity (source comment: should cascade correctly). -/
def cascadeDeleteUser (d : DB) (user : String) : DB :=
  let uids := (d.users.filter (fun r => r.2 == user)).map (fun r => r.1)
  { d with
    users := d.users.filter (fun r => r.2 != user),
    timestamps := d.timestamps.filter (fun r => !(uids.contains r.1)),
    used_scratch_tokens := d.used_scratch_tokens.filter (fun r => !(uids.contains r.1)),
    secrets := d.secrets.filter (fun r => !(uids.contains r.1)),
    scratch_tokens := d.scratch_tokens.filter (fun r => !(uids.contains r.1)),
    pincodes := d.pincodes.filter (fun r => !(uids.contains r.1)) }

/-- GAStateBackend._remove_user_state (pgsql.py lines 134-140): cascade-delete
the identity row and commit.  Note that self.locks is not touched. -/
def remove_user_state (srv : Server) (b : GAStateBackend) (user : String) :
    Server × GAStateBackend :=
  let d := cascadeDeleteUser (workingDb srv b.conn) user
  ({ srv with db := d }, { b with conn := { b.conn with txn := none } })

/-- The userids whose users row carries this username (the USING (userid)
join against a WHERE on username). -/
def useridsFor (d : DB) (user : String) : List Nat :=
  (d.users.filter (fun u => u.2 == user)).map (fun u => u.1)

/-- SELECT s.* FROM secrets AS s JOIN users AS u USING (userid) WHERE
u.username = user (fetchone). -/
def selectSecretsRow (d : DB) (user : String) : Option SecretsRow :=
  (d.secrets.find? (fun r => (useridsFor d user).contains r.1)).map (fun r => r.2)

/-- SELECT st.token FROM scratch_tokens AS st JOIN users AS u USING (userid)
WHERE u.username = user, in table order. -/
def selectScratchTokens (d : DB) (user : String) : List String :=
  (d.scratch_tokens.filter (fun r => (useridsFor d user).contains r.1)).map
    (fun r => r.2)

/-- SELECT p.pincode FROM pincodes AS p JOIN users AS u USING (userid) WHERE
u.username = user (fetchone). -/
def selectPincode (d : DB) (user : String) : Option String :=
  (d.pincodes.find? (fun r => (useridsFor d user).contains r.1)).map (fun r => r.2)

/-- GASecretBackend.get_user_secret (pgsql.py lines 150-188): fetch the
secrets row joined through users, raising UserNotFound when absent; set
rate_limit only when both rate_limit_times and rate_limit_seconds are
non-null; set window_size only when non-null; then load the still-valid
scratch-token pool.  Reads run in the secret backend's own session against
the committed database. -/
def get_user_secret (srv : Server) (user : String) : Except TotpError GAUserSecret :=
  match selectSecretsRow srv.db user with
  | none => .error (.UserNotFound ("no secrets record for " ++ user))
  | some row =>
    let gaus : GAUserSecret := { secret := row.secret }
    let gaus :=
      match row.rate_limit_times, row.rate_limit_seconds with
      | some t, some s => { gaus with rate_limit := some (t, s) }
      | _, _ => gaus
    let gaus :=
      match row.window_size with
      | some w => { gaus with window_size := some w }
      | none => gaus
    let gaus :=
      { gaus with scratch_tokens := gaus.scratch_tokens ++ selectScratchTokens srv.db user }
    .ok gaus

/-- GAPincodeBackend.verify_user_pincode (pgsql.py lines 199-217): fetch the
pincode hash joined through users, raising UserPincodeError when absent;
otherwise return the external hash verifier's result unchanged.  The
verifier (_verify_by_hashcode, defined in the base class outside src/) is a
parameter. -/
def verify_user_pincode (hashVerifier : String → String → Bool) (srv : Server)
    (user pincode : String) : Except TotpError Bool :=
  match selectPincode srv.db user with
  | none => .error (.UserPincodeError ("no pincodes record for user " ++ user))
  | some hashcode => .ok (hashVerifier pincode hashcode)

/-- The database produced by the delete-and-reinsert statements of
update_user_state for one userid: a characterization, proved below, used to
state the claims. -/
def replacedDb (d : DB) (uid : Nat) (state : GAUserState) : DB :=
  { d with
    timestamps := d.timestamps.filter (fun r => r.1 != uid)
      ++ state.fail_timestamps.map (fun ts => (uid, false, ts))
      ++ state.success_timestamps.map (fun ts => (uid, true, ts)),
    used_scratch_tokens := d.used_scratch_tokens.filter (fun r => r.1 != uid)
      ++ state.used_scratch_tokens.map (fun t => (uid, t)) }

lemma foldl_insertTimestamp (uid : Nat) (s : Bool) (l : List Int) (d : DB) :
    l.foldl (fun d ts => insertTimestamp d uid s ts) d =
      { d with timestamps := d.timestamps ++ l.map (fun ts => (uid, s, ts)) } := by
  induction l generalizing d with
  | nil => simp
  | cons a l ih =>
    rw [List.foldl_cons, ih]
    simp [insertTimestamp]

lemma foldl_insertUsedToken (uid : Nat) (l : List String) (d : DB) :
    l.foldl (fun d t => insertUsedToken d uid t) d =
      { d with used_scratch_tokens :=
          d.used_scratch_tokens ++ l.map (fun t => (uid, t)) } := by
  induction l generalizing d with
  | nil => simp
  | cons a l ih =>
    rw [List.foldl_cons, ih]
    simp [insertUsedToken]

/-- The successful work phase in closed form: all statements through the
advisory unlock, with the wholesale replacement pending in the open
transaction and the committed database untouched. -/
lemma update_user_state_work_none (srv : Server) (c : SessionConn) (uid : Nat)
    (state : GAUserState) :
    update_user_state_work none srv c uid state =
      (advisoryUnlock srv uid c.sid,
       { c with txn := some (replacedDb (workingDb srv c) uid state) }, none) := by
  simp only [update_user_state_work, foldl_insertTimestamp, foldl_insertUsedToken,
    deleteTimestamps, deleteUsedTokens, replacedDb]
  simp

/-- update_user_state in closed form when the session-local lock map knows
the username. -/
lemma update_user_state_eq (srv : Server) (b : GAStateBackend) (user : String)
    (state : GAUserState) (uid : Nat) (h : locksLookup b.locks user = some uid) :
    update_user_state srv b user state =
      ({ db := replacedDb (workingDb srv b.conn) uid state,
         advLocks := (advisoryUnlock srv uid b.conn.sid).advLocks },
       { conn := { sid := b.conn.sid, txn := none },
         locks := locksErase b.locks user }, none) := by
  simp only [update_user_state, update_user_state_run, h, update_user_state_work_none]
  simp [workingDb, advisoryUnlock]

lemma and_bne_self (a b : Nat) : (a == b && a != b) = false := by
  by_cases h : a = b <;> simp [h]

lemma filter_keep_of_drop {β : Type} (uid : Nat) (l : List (Nat × β)) :
    (l.filter (fun r => r.1 != uid)).filter (fun r => r.1 == uid) = [] := by
  induction l with
  | nil => rfl
  | cons hd tl ih =>
    by_cases h : hd.1 = uid <;> simp [List.filter_cons, h, ih]

lemma filter_drop_of_drop {β : Type} (uid : Nat) (l : List (Nat × β)) :
    (l.filter (fun r => r.1 != uid)).filter (fun r => r.1 != uid) =
      l.filter (fun r => r.1 != uid) := by
  rw [List.filter_filter]
  simp

/-- Reading back the timestamps of a replaced database for the same userid
yields exactly the reinserted rows: fail rows first, then success rows. -/
lemma selectTimestamps_replaced (d : DB) (uid : Nat) (state : GAUserState) :
    selectTimestamps (replacedDb d uid state) uid =
      state.fail_timestamps.map (fun ts => (ts, false))
        ++ state.success_timestamps.map (fun ts => (ts, true)) := by
  simp [selectTimestamps, replacedDb, List.filter_append, filter_keep_of_drop,
    List.filter_map, Function.comp_def, List.map_map, and_bne_self]

lemma selectUsedTokens_replaced (d : DB) (uid : Nat) (state : GAUserState) :
    selectUsedTokens (replacedDb d uid state) uid = state.used_scratch_tokens := by
  simp [selectUsedTokens, replacedDb, List.filter_append, filter_keep_of_drop,
    List.filter_map, Function.comp_def, List.map_map, and_bne_self]

lemma readTimestampRows_fails (st : GAUserState) (l : List Int) :
    readTimestampRows st (l.map (fun ts => (ts, false))) =
      { st with fail_timestamps := st.fail_timestamps ++ l } := by
  induction l generalizing st with
  | nil => simp [readTimestampRows]
  | cons a l ih =>
    simp [readTimestampRows, readTimestampRow] at ih ⊢
    simp [ih]

lemma readTimestampRows_succs (st : GAUserState) (l : List Int) :
    readTimestampRows st (l.map (fun ts => (ts, true))) =
      { st with success_timestamps := st.success_timestamps ++ l } := by
  induction l generalizing st with
  | nil => simp [readTimestampRows]
  | cons a l ih =>
    simp [readTimestampRows, readTimestampRow] at ih ⊢
    simp [ih]

lemma readTokenRows_eq (st : GAUserState) (l : List String) :
    readTokenRows st l =
      { st with used_scratch_tokens := st.used_scratch_tokens ++ l } := by
  induction l generalizing st with
  | nil => simp [readTokenRows]
  | cons a l ih =>
    simp [readTokenRows] at ih ⊢
    simp [ih]

/-- Loading the history of a replaced database for the same userid, starting
from an empty state, recovers exactly the committed state. -/
lemma loadState_replaced (d : DB) (uid : Nat) (state : GAUserState) :
    readTokenRows
      (readTimestampRows {} (selectTimestamps (replacedDb d uid state) uid))
      (selectUsedTokens (replacedDb d uid state) uid) = state := by
  rw [selectTimestamps_replaced, selectUsedTokens_replaced, readTimestampRows,
    List.foldl_append, ← readTimestampRows, ← readTimestampRows,
    readTimestampRows_fails, readTimestampRows_succs, readTokenRows_eq]
  cases state
  simp

/-- get_user_state in closed form for an existing identity whose lock is
available to the calling session. -/
lemma get_user_state_existing (srv : Server) (b : GAStateBackend) (user : String)
    (uid : Nat) (h1 : selectUserid (workingDb srv b.conn) user = some uid)
    (h2 : canLock srv uid b.conn.sid = true) :
    get_user_state srv b user =
      some (advisoryLock srv uid b.conn.sid,
            { conn := { b.conn with txn := some (workingDb srv b.conn) },
              locks := locksInsert b.locks user uid },
            readTokenRows
              (readTimestampRows {} (selectTimestamps (workingDb srv b.conn) uid))
              (selectUsedTokens (workingDb srv b.conn) uid)) := by
  simp [get_user_state, h1, h2]

lemma filter_keep_of_drop_snd (user : String) (l : List (Nat × String)) :
    (l.filter (fun r => r.2 != user)).filter (fun r => r.2 == user) = [] := by
  induction l with
  | nil => rfl
  | cons hd tl ih =>
    cases h : hd.2 == user <;> simp [List.filter_cons, bne, h, ih]

lemma locksLookup_erase (l : List (String × Nat)) (user : String) :
    locksLookup (locksErase l user) user = none := by
  simp [locksLookup, locksErase, List.find?_eq_none, List.mem_filter]

/-- The replacement write touches no other table: username lookup is
unchanged. -/
lemma selectUserid_replaced (d : DB) (uid : Nat) (state : GAUserState)
    (user : String) :
    selectUserid (replacedDb d uid state) user = selectUserid d user := rfl

/-- A username that existed nowhere gains exactly its fresh identity row, and
its userid is the next serial value. -/
lemma selectUserid_insertUser (d : DB) (user : String)
    (h : selectUserid d user = none) :
    selectUserid (insertUser d user) user = some d.nextUserId := by
  have hf : d.users.find? (fun r => r.2 == user) = none := by
    rw [List.find?_eq_none]
    simp [selectUserid] at h
    intro x hx
    simp [h x.1 x.2 hx]
  simp [selectUserid, insertUser, List.find?_append, hf]

/-- Cascade removal of a username leaves no identity carrying it. -/
lemma useridsFor_cascadeDelete (d : DB) (user : String) :
    useridsFor (cascadeDeleteUser d user) user = [] := by
  simp [useridsFor, cascadeDeleteUser, filter_keep_of_drop_snd]

lemma selectSecretsRow_cascadeDelete (d : DB) (user : String) :
    selectSecretsRow (cascadeDeleteUser d user) user = none := by
  simp [selectSecretsRow, List.find?_eq_none, useridsFor_cascadeDelete]

/-- get_user_secret in closed form when the joined secrets row exists. -/
lemma get_user_secret_eq (srv : Server) (user : String) (row : SecretsRow)
    (h : selectSecretsRow srv.db user = some row) :
    get_user_secret srv user = .ok
      { secret := row.secret,
        rate_limit :=
          match row.rate_limit_times, row.rate_limit_seconds with
          | some t, some s => some (t, s)
          | _, _ => none,
        window_size := row.window_size,
        scratch_tokens := selectScratchTokens srv.db user } := by
  obtain ⟨sec, rlt, rls, ws⟩ := row
  cases rlt <;> cases rls <;> cases ws <;> simp [get_user_secret, h]

/-- After the sole holder of the advisory lock on uid releases it once, any
session can take the lock. -/
lemma canLock_after_unlock (l : List (Nat × Nat)) (uid sid sid2 : Nat)
    (h : l.filter (fun e => e.1 == uid) = [(uid, sid)]) :
    (l.eraseP (fun e => e.1 == uid && e.2 == sid)).all
      (fun e => e.1 != uid || e.2 == sid2) = true := by
  induction l with
  | nil => simp at h
  | cons hd tl ih =>
    by_cases hk : hd.1 = uid
    · rw [List.filter_cons] at h
      simp only [hk, beq_self_eq_true, if_pos] at h
      obtain ⟨h1, h2⟩ := List.cons_eq_cons.mp h
      rw [List.filter_eq_nil_iff] at h2
      have hp : (hd.1 == uid && hd.2 == sid) = true := by simp [h1]
      simp only [List.eraseP_cons, hp, cond_true, List.all_eq_true]
      intro e he
      have := h2 e he
      simp at this ⊢
      exact Or.inl this
    · rw [List.filter_cons] at h
      simp only [beq_iff_eq, hk, if_neg, if_false] at h
      have hp : (hd.1 == uid && hd.2 == sid) = false := by simp [hk]
      simp only [List.eraseP_cons, hp, cond_false, List.all_cons, Bool.and_eq_true]
      refine ⟨by simp [hk], ?_⟩
      simpa using ih (by simpa using h)

/-- C1: commitState (update_user_state) for a username with no lock-token
association in the session-local map — which is exactly the record of a
prior successful acquireAndLoadState not yet committed in this session —
fails with LockNotHeldError (realized as UserStateError in the source) and
performs no mutation: server and backend are returned unchanged.  Moreover a
successful commitState deletes the association, so a second commitState for
the same acquire fails the same way and again mutates nothing. -/
theorem C1_commit_requires_lock (srv : Server) (b : GAStateBackend)
    (user : String) (state : GAUserState) :
    (locksLookup b.locks user = none →
      update_user_state srv b user state =
        (srv, b, some (TotpError.UserStateError
          (user ++ "\x27s pg lock has gone away!")))) ∧
    ((update_user_state srv b user state).2.2 = none →
      locksLookup (update_user_state srv b user state).2.1.locks user = none ∧
      ∀ state2 : GAUserState,
        update_user_state (update_user_state srv b user state).1
            (update_user_state srv b user state).2.1 user state2 =
          ((update_user_state srv b user state).1,
           (update_user_state srv b user state).2.1,
           some (TotpError.UserStateError
             (user ++ "\x27s pg lock has gone away!")))) := by
  constructor
  · intro h
    simp [update_user_state, update_user_state_run, h]
  · intro h
    cases hlk : locksLookup b.locks user with
    | none =>
      rw [update_user_state, update_user_state_run, hlk] at h
      simp at h
    | some uid =>
      rw [update_user_state_eq srv b user state uid hlk]
      refine ⟨locksLookup_erase b.locks user, ?_⟩
      intro state2
      simp [update_user_state, update_user_state_run, locksLookup_erase]

def srvW1 : Server :=
  { db := { users := [(1, "alice")], nextUserId := 2 }, advLocks := [(1, 7)] }

def bW1 : GAStateBackend :=
  { conn := { sid := 7 }, locks := [("alice", 1)] }

def bW0 : GAStateBackend := { conn := { sid := 7 } }

theorem C1_commit_requires_lock_witness :
    locksLookup bW0.locks "alice" = none ∧
    update_user_state srvW1 bW0 "alice" {} =
      (srvW1, bW0, some (TotpError.UserStateError
        ("alice" ++ "\x27s pg lock has gone away!"))) ∧
    ((update_user_state srvW1 bW1 "alice" {}).2.2 = none →
      locksLookup (update_user_state srvW1 bW1 "alice" {}).2.1.locks "alice" = none ∧
      ∀ state2 : GAUserState,
        update_user_state (update_user_state srvW1 bW1 "alice" {}).1
            (update_user_state srvW1 bW1 "alice" {}).2.1 "alice" state2 =
          ((update_user_state srvW1 bW1 "alice" {}).1,
           (update_user_state srvW1 bW1 "alice" {}).2.1,
           some (TotpError.UserStateError
             ("alice" ++ "\x27s pg lock has gone away!")))) :=
  ⟨by decide,
   (C1_commit_requires_lock srvW1 bW0 "alice" {}).1 (by decide),
   (C1_commit_requires_lock srvW1 bW1 "alice" {}).2⟩

/-- C3: acquireAndLoadState (get_user_state) for a username never seen
before (no identity row in the session's working database) inserts exactly
one identity row for that username keyed by the next serial userid, takes
the advisory lock keyed by that new userid for the calling session, records
the association in the session-local map, and returns the empty history. -/
theorem C3_new_user_empty_history (srv : Server) (b : GAStateBackend)
    (user : String)
    (hnew : selectUserid (workingDb srv b.conn) user = none)
    (hcl : canLock srv (workingDb srv b.conn).nextUserId b.conn.sid = true) :
    get_user_state srv b user =
      some (advisoryLock srv (workingDb srv b.conn).nextUserId b.conn.sid,
            { conn := { b.conn with
                txn := some (insertUser (workingDb srv b.conn) user) },
              locks := locksInsert b.locks user
                (workingDb srv b.conn).nextUserId },
            {}) ∧
    ((insertUser (workingDb srv b.conn) user).users.filter
        (fun r => r.2 == user)).length = 1 ∧
    ((workingDb srv b.conn).nextUserId, b.conn.sid) ∈
      (advisoryLock srv (workingDb srv b.conn).nextUserId b.conn.sid).advLocks := by
  have hins := selectUserid_insertUser (workingDb srv b.conn) user hnew
  refine ⟨?_, ?_, ?_⟩
  · rw [get_user_state]
    simp [hnew, hins, hcl]
  · have hf : (workingDb srv b.conn).users.filter (fun r => r.2 == user) = [] := by
      rw [List.filter_eq_nil_iff]
      simp [selectUserid] at hnew
      intro a ha
      simp [hnew a.1 a.2 ha]
    simp [insertUser, List.filter_append, hf]
  · simp [advisoryLock]

def srvW0 : Server := { db := {} }

theorem C3_new_user_empty_history_witness :
    selectUserid (workingDb srvW0 bW0.conn) "alice" = none ∧
    canLock srvW0 (workingDb srvW0 bW0.conn).nextUserId bW0.conn.sid = true ∧
    (get_user_state srvW0 bW0 "alice" =
      some (advisoryLock srvW0 (workingDb srvW0 bW0.conn).nextUserId bW0.conn.sid,
            { conn := { bW0.conn with
                txn := some (insertUser (workingDb srvW0 bW0.conn) "alice") },
              locks := locksInsert bW0.locks "alice"
                (workingDb srvW0 bW0.conn).nextUserId },
            {}) ∧
    ((insertUser (workingDb srvW0 bW0.conn) "alice").users.filter
        (fun r => r.2 == "alice")).length = 1 ∧
    ((workingDb srvW0 bW0.conn).nextUserId, bW0.conn.sid) ∈
      (advisoryLock srvW0 (workingDb srvW0 bW0.conn).nextUserId bW0.conn.sid).advLocks) :=
  ⟨by decide, by decide,
   C3_new_user_empty_history srvW0 bW0 "alice" (by decide) (by decide)⟩

/-- C4: a commitState holding the lock replaces the stored history
wholesale: in the committed database the timestamp rows of the locked userid
are exactly the reinserted fail rows then success rows of the supplied
history, its used-scratch-token rows are exactly the supplied tokens, rows
of every other userid in those two tables are untouched, and every other
table is untouched. -/
theorem C4_wholesale_replacement (srv : Server) (b : GAStateBackend)
    (user : String) (state : GAUserState) (uid : Nat)
    (h : locksLookup b.locks user = some uid) :
    (update_user_state srv b user state).2.2 = none ∧
    (update_user_state srv b user state).1.db.timestamps.filter
        (fun row => row.1 == uid) =
      state.fail_timestamps.map (fun ts => (uid, false, ts))
        ++ state.success_timestamps.map (fun ts => (uid, true, ts)) ∧
    (update_user_state srv b user state).1.db.used_scratch_tokens.filter
        (fun row => row.1 == uid) =
      state.used_scratch_tokens.map (fun t => (uid, t)) ∧
    (update_user_state srv b user state).1.db.timestamps.filter
        (fun row => row.1 != uid) =
      (workingDb srv b.conn).timestamps.filter (fun row => row.1 != uid) ∧
    (update_user_state srv b user state).1.db.used_scratch_tokens.filter
        (fun row => row.1 != uid) =
      (workingDb srv b.conn).used_scratch_tokens.filter (fun row => row.1 != uid) ∧
    (update_user_state srv b user state).1.db.users = (workingDb srv b.conn).users ∧
    (update_user_state srv b user state).1.db.secrets =
      (workingDb srv b.conn).secrets ∧
    (update_user_state srv b user state).1.db.scratch_tokens =
      (workingDb srv b.conn).scratch_tokens ∧
    (update_user_state srv b user state).1.db.pincodes =
      (workingDb srv b.conn).pincodes ∧
    (update_user_state srv b user state).1.db.nextUserId =
      (workingDb srv b.conn).nextUserId := by
  rw [update_user_state_eq srv b user state uid h]
  refine ⟨rfl, ?_, ?_, ?_, ?_, rfl, rfl, rfl, rfl, rfl⟩ <;>
    simp [replacedDb, List.filter_append, filter_keep_of_drop,
      filter_drop_of_drop, List.filter_map, Function.comp_def, and_bne_self]

def hW : GAUserState :=
  { fail_timestamps := [3], success_timestamps := [9, 11],
    used_scratch_tokens := ["t1"] }

theorem C4_wholesale_replacement_witness :
    locksLookup bW1.locks "alice" = some 1 ∧
    ((update_user_state srvW1 bW1 "alice" hW).2.2 = none ∧
    (update_user_state srvW1 bW1 "alice" hW).1.db.timestamps.filter
        (fun row => row.1 == 1) =
      hW.fail_timestamps.map (fun ts => (1, false, ts))
        ++ hW.success_timestamps.map (fun ts => (1, true, ts)) ∧
    (update_user_state srvW1 bW1 "alice" hW).1.db.used_scratch_tokens.filter
        (fun row => row.1 == 1) =
      hW.used_scratch_tokens.map (fun t => (1, t)) ∧
    (update_user_state srvW1 bW1 "alice" hW).1.db.timestamps.filter
        (fun row => row.1 != 1) =
      (workingDb srvW1 bW1.conn).timestamps.filter (fun row => row.1 != 1) ∧
    (update_user_state srvW1 bW1 "alice" hW).1.db.used_scratch_tokens.filter
        (fun row => row.1 != 1) =
      (workingDb srvW1 bW1.conn).used_scratch_tokens.filter
        (fun row => row.1 != 1) ∧
    (update_user_state srvW1 bW1 "alice" hW).1.db.users =
      (workingDb srvW1 bW1.conn).users ∧
    (update_user_state srvW1 bW1 "alice" hW).1.db.secrets =
      (workingDb srvW1 bW1.conn).secrets ∧
    (update_user_state srvW1 bW1 "alice" hW).1.db.scratch_tokens =
      (workingDb srvW1 bW1.conn).scratch_tokens ∧
    (update_user_state srvW1 bW1 "alice" hW).1.db.pincodes =
      (workingDb srvW1 bW1.conn).pincodes ∧
    (update_user_state srvW1 bW1 "alice" hW).1.db.nextUserId =
      (workingDb srvW1 bW1.conn).nextUserId) :=
  ⟨by decide, C4_wholesale_replacement srvW1 bW1 "alice" hW 1 (by decide)⟩

/-- C5: in every successful commitState the advisory lock is released by the
work phase, strictly before the transaction commit: after the unlock
statement the committed database is still exactly the pre-call committed
database (so a session woken by the release can only observe the prior
fully-committed history, never a partially-committed state), the lock on the
userid is already released there, and the full operation is exactly this
work phase followed by the commit publishing the working copy. -/
theorem C5_unlock_precedes_commit (srv : Server) (b : GAStateBackend)
    (user : String) (state : GAUserState) (uid : Nat)
    (h : locksLookup b.locks user = some uid) :
    (update_user_state_work none srv b.conn uid state).2.2 = none ∧
    (update_user_state_work none srv b.conn uid state).1.db = srv.db ∧
    (update_user_state_work none srv b.conn uid state).1.advLocks =
      (advisoryUnlock srv uid b.conn.sid).advLocks ∧
    update_user_state srv b user state =
      ({ db := workingDb (update_user_state_work none srv b.conn uid state).1
                 (update_user_state_work none srv b.conn uid state).2.1,
         advLocks := (update_user_state_work none srv b.conn uid state).1.advLocks },
       { conn := { sid := b.conn.sid, txn := none },
         locks := locksErase b.locks user }, none) := by
  rw [update_user_state_work_none]
  refine ⟨rfl, rfl, rfl, ?_⟩
  rw [update_user_state_eq srv b user state uid h]
  simp [workingDb, advisoryUnlock]

theorem C5_unlock_precedes_commit_witness :
    locksLookup bW1.locks "alice" = some 1 ∧
    ((update_user_state_work none srvW1 bW1.conn 1 hW).2.2 = none ∧
    (update_user_state_work none srvW1 bW1.conn 1 hW).1.db = srvW1.db ∧
    (update_user_state_work none srvW1 bW1.conn 1 hW).1.advLocks =
      (advisoryUnlock srvW1 1 bW1.conn.sid).advLocks ∧
    update_user_state srvW1 bW1 "alice" hW =
      ({ db := workingDb (update_user_state_work none srvW1 bW1.conn 1 hW).1
                 (update_user_state_work none srvW1 bW1.conn 1 hW).2.1,
         advLocks := (update_user_state_work none srvW1 bW1.conn 1 hW).1.advLocks },
       { conn := { sid := bW1.conn.sid, txn := none },
         locks := locksErase bW1.locks "alice" }, none)) :=
  ⟨by decide, C5_unlock_precedes_commit srvW1 bW1 "alice" hW 1 (by decide)⟩

/-- A fresh session reloading after a wholesale replacement gets back exactly
the committed history and a fresh lock. -/
lemma get_fresh_after_replace (d : DB) (uid : Nat) (state : GAUserState)
    (advl : List (Nat × Nat)) (user : String) (sid2 : Nat)
    (huid : selectUserid d user = some uid)
    (hcl : canLock { db := replacedDb d uid state, advLocks := advl } uid sid2 = true) :
    ∃ srv2 b2,
      get_user_state { db := replacedDb d uid state, advLocks := advl }
          { conn := { sid := sid2, txn := none }, locks := [] } user =
        some (srv2, b2, state) ∧
      locksLookup b2.locks user = some uid ∧
      (uid, sid2) ∈ srv2.advLocks := by
  refine ⟨advisoryLock { db := replacedDb d uid state, advLocks := advl } uid sid2,
    { conn := { sid := sid2, txn := some (replacedDb d uid state) },
      locks := locksInsert [] user uid }, ?_, ?_, ?_⟩
  · rw [get_user_state]
    have hwd : workingDb { db := replacedDb d uid state, advLocks := advl }
        ({ conn := { sid := sid2, txn := none }, locks := [] } : GAStateBackend).conn =
        replacedDb d uid state := rfl
    rw [hwd, selectUserid_replaced, huid]
    simp only [hcl, if_true, loadState_replaced]
  · simp [locksLookup, locksInsert]
  · simp [advisoryLock]

/-- C2: after a successful commitState of history state for the user, an
acquireAndLoadState by a fresh session returns exactly that history (same
fail timestamps, same success timestamps, same used scratch tokens), records
the lock association, and holds a fresh advisory lock on the userid.  The
hypotheses say the committing session held the userid's lock association and
was the sole advisory-lock holder for that userid. -/
theorem C2_commit_reload_roundtrip (srv : Server) (b : GAStateBackend)
    (user : String) (state : GAUserState) (uid sid2 : Nat)
    (hlk : locksLookup b.locks user = some uid)
    (huid : selectUserid (workingDb srv b.conn) user = some uid)
    (hadv : srv.advLocks.filter (fun e => e.1 == uid) = [(uid, b.conn.sid)]) :
    (update_user_state srv b user state).2.2 = none ∧
    ∃ srv2 b2,
      get_user_state (update_user_state srv b user state).1
          { conn := { sid := sid2, txn := none }, locks := [] } user =
        some (srv2, b2, state) ∧
      locksLookup b2.locks user = some uid ∧
      (uid, sid2) ∈ srv2.advLocks := by
  rw [update_user_state_eq srv b user state uid hlk]
  refine ⟨rfl, ?_⟩
  exact get_fresh_after_replace (workingDb srv b.conn) uid state
    (advisoryUnlock srv uid b.conn.sid).advLocks user sid2 huid
    (by simpa [canLock, advisoryUnlock] using
      canLock_after_unlock srv.advLocks uid b.conn.sid sid2 hadv)

theorem C2_commit_reload_roundtrip_witness :
    locksLookup bW1.locks "alice" = some 1 ∧
    selectUserid (workingDb srvW1 bW1.conn) "alice" = some 1 ∧
    srvW1.advLocks.filter (fun e => e.1 == 1) = [(1, bW1.conn.sid)] ∧
    ((update_user_state srvW1 bW1 "alice" hW).2.2 = none ∧
    ∃ srv2 b2,
      get_user_state (update_user_state srvW1 bW1 "alice" hW).1
          { conn := { sid := 8, txn := none }, locks := [] } "alice" =
        some (srv2, b2, hW) ∧
      locksLookup b2.locks "alice" = some 1 ∧
      (1, 8) ∈ srv2.advLocks) :=
  ⟨by decide, by decide, by decide,
   C2_commit_reload_roundtrip srvW1 bW1 "alice" hW 1 8
     (by decide) (by decide) (by decide)⟩

/-- C6 counterexample to the claim as stated: with session 7 holding the
advisory lock on userid 1 and the lock association present, injecting a
store failure at the first DELETE of commitState makes the call fail, and
the advisory lock on userid 1 is NOT released: it is still held by session
7, and another session (8) cannot take it, so a future acquireAndLoadState
for the user blocks.  The code has no finally-path releasing the lock on
error; release would come only from session teardown. -/
theorem C6_lock_not_released_counterexample :
    (update_user_state_run (some 0) srvW1 bW1 "alice" hW).2.2 =
      some (TotpError.StoreUnavailable 0) ∧
    (1, 7) ∈ (update_user_state_run (some 0) srvW1 bW1 "alice" hW).1.advLocks ∧
    canLock (update_user_state_run (some 0) srvW1 bW1 "alice" hW).1 1 8 = false := by
  decide

/-- C6 as amended: for every failure during commitState after the lock check
passes (injected at statement k, 0 = first DELETE through 6 = the final
commit), the previously committed history remains intact (the committed
database is unchanged, since the transaction never commits) and the session
lock map keeps the association; but the advisory lock is NOT released by
commitState itself when the failure strikes before the unlock statement
(k at most 5) — it remains exactly as held, and release then relies on
session teardown; only when the failure strikes the final commit (k = 6)
has the unlock already executed. -/
theorem C6_failure_transactional_lock_kept (srv : Server) (b : GAStateBackend)
    (user : String) (state : GAUserState) (uid k : Nat)
    (hlk : locksLookup b.locks user = some uid) (hk : k ≤ 6) :
    (update_user_state_run (some k) srv b user state).2.2 =
      some (TotpError.StoreUnavailable k) ∧
    (update_user_state_run (some k) srv b user state).1.db = srv.db ∧
    (update_user_state_run (some k) srv b user state).2.1.locks = b.locks ∧
    (k ≤ 5 → (update_user_state_run (some k) srv b user state).1.advLocks =
      srv.advLocks) ∧
    (k = 6 → (update_user_state_run (some k) srv b user state).1.advLocks =
      (advisoryUnlock srv uid b.conn.sid).advLocks) := by
  interval_cases k <;>
    simp [update_user_state_run, update_user_state_work, hlk, advisoryUnlock]

theorem C6_failure_transactional_lock_kept_witness :
    locksLookup bW1.locks "alice" = some 1 ∧ 2 ≤ 6 ∧
    ((update_user_state_run (some 2) srvW1 bW1 "alice" hW).2.2 =
      some (TotpError.StoreUnavailable 2) ∧
    (update_user_state_run (some 2) srvW1 bW1 "alice" hW).1.db = srvW1.db ∧
    (update_user_state_run (some 2) srvW1 bW1 "alice" hW).2.1.locks = bW1.locks ∧
    (2 ≤ 5 → (update_user_state_run (some 2) srvW1 bW1 "alice" hW).1.advLocks =
      srvW1.advLocks) ∧
    (2 = 6 → (update_user_state_run (some 2) srvW1 bW1 "alice" hW).1.advLocks =
      (advisoryUnlock srvW1 1 bW1.conn.sid).advLocks)) :=
  ⟨by decide, by decide,
   C6_failure_transactional_lock_kept srvW1 bW1 "alice" hW 1 2
     (by decide) (by decide)⟩

/-- C7: getUserSecret fails with UserNotFound whenever no secrets row joins
to the username (it never fabricates a default secret); in particular, after
removeUserState for a user, the cascade has deleted the identity and all
owned rows, so getUserSecret for that user yields UserNotFound — for every
starting database. -/
theorem C7_no_secret_user_not_found (srv : Server) (b : GAStateBackend)
    (user : String) :
    (selectSecretsRow srv.db user = none →
      get_user_secret srv user =
        .error (TotpError.UserNotFound ("no secrets record for " ++ user))) ∧
    get_user_secret (remove_user_state srv b user).1 user =
      .error (TotpError.UserNotFound ("no secrets record for " ++ user)) := by
  constructor
  · intro h
    simp [get_user_secret, h]
  · simp [get_user_secret, remove_user_state, selectSecretsRow_cascadeDelete]

def srvSec : Server :=
  { db := { users := [(1, "carol")], nextUserId := 2,
            secrets := [(1, { secret := "SECRETBASE32",
                              rate_limit_times := some 8,
                              rate_limit_seconds := some 30,
                              window_size := some 2 })],
            scratch_tokens := [(1, "11111111")],
            pincodes := [(1, "hash1")] } }

def bSec : GAStateBackend := { conn := { sid := 5 } }

theorem C7_no_secret_user_not_found_witness :
    selectSecretsRow srvW0.db "bob" = none ∧
    get_user_secret srvW0 "bob" =
      .error (TotpError.UserNotFound ("no secrets record for " ++ "bob")) ∧
    get_user_secret (remove_user_state srvSec bSec "carol").1 "carol" =
      .error (TotpError.UserNotFound ("no secrets record for " ++ "carol")) :=
  ⟨by decide,
   (C7_no_secret_user_not_found srvW0 bW0 "bob").1 (by decide),
   (C7_no_secret_user_not_found srvSec bSec "carol").2⟩

/-- C8: for a user with a secrets row, the returned UserSecret has
rate_limit present if and only if both rate_limit_times and
rate_limit_seconds are non-null in storage (and then it is exactly their
pair); when rate_limit_times is NULL the rate_limit is absent, not zeroed;
and window_size is carried over exactly, so it is set only when non-null. -/
theorem C8_optional_policy_fields (srv : Server) (user : String)
    (row : SecretsRow) (h : selectSecretsRow srv.db user = some row) :
    ∃ gaus, get_user_secret srv user = .ok gaus ∧
      gaus.secret = row.secret ∧
      gaus.window_size = row.window_size ∧
      (gaus.rate_limit.isSome ↔
        (row.rate_limit_times.isSome ∧ row.rate_limit_seconds.isSome)) ∧
      (∀ t s, row.rate_limit_times = some t → row.rate_limit_seconds = some s →
        gaus.rate_limit = some (t, s)) ∧
      (row.rate_limit_times = none → gaus.rate_limit = none) ∧
      (row.window_size = none → gaus.window_size = none) := by
  obtain ⟨sec, rlt, rls, ws⟩ := row
  refine ⟨_, get_user_secret_eq srv user ⟨sec, rlt, rls, ws⟩ h,
    rfl, rfl, ?_, ?_, ?_, ?_⟩
  · cases rlt <;> cases rls <;> simp
  · intro t s ht hs
    subst ht; subst hs; rfl
  · intro ht
    subst ht; rfl
  · intro hw
    subst hw; rfl

theorem C8_optional_policy_fields_witness :
    selectSecretsRow srvSec.db "carol" =
      some { secret := "SECRETBASE32", rate_limit_times := some 8,
             rate_limit_seconds := some 30, window_size := some 2 } ∧
    ∃ gaus, get_user_secret srvSec "carol" = .ok gaus ∧
      gaus.secret = "SECRETBASE32" ∧
      gaus.window_size = some 2 ∧
      (gaus.rate_limit.isSome ↔
        ((some 8 : Option Int).isSome ∧ (some 30 : Option Int).isSome)) ∧
      (∀ t s, (some 8 : Option Int) = some t → (some 30 : Option Int) = some s →
        gaus.rate_limit = some (t, s)) ∧
      ((some 8 : Option Int) = none → gaus.rate_limit = none) ∧
      ((some 2 : Option Int) = none → gaus.window_size = none) :=
  ⟨by decide,
   C8_optional_policy_fields srvSec "carol"
     { secret := "SECRETBASE32", rate_limit_times := some 8,
       rate_limit_seconds := some 30, window_size := some 2 } (by decide)⟩

/-- C9: verifyUserPincode for a user with no pincode row fails with
NoPincodeRecordError (realized as UserPincodeError), not false; with a
stored hash it returns exactly the external hash verifier's boolean applied
to the candidate and the stored hash, unchanged. -/
theorem C9_pincode_verify (v : String → String → Bool) (srv : Server)
    (user pincode : String) :
    (selectPincode srv.db user = none →
      verify_user_pincode v srv user pincode =
        .error (TotpError.UserPincodeError ("no pincodes record for user " ++ user))) ∧
    (∀ hashcode, selectPincode srv.db user = some hashcode →
      verify_user_pincode v srv user pincode = .ok (v pincode hashcode)) := by
  constructor
  · intro h
    simp [verify_user_pincode, h]
  · intro hashcode h
    simp [verify_user_pincode, h]

def vW : String → String → Bool := fun c hs => c == hs

theorem C9_pincode_verify_witness :
    selectPincode srvW0.db "bob" = none ∧
    verify_user_pincode vW srvW0 "bob" "1234" =
      .error (TotpError.UserPincodeError ("no pincodes record for user " ++ "bob")) ∧
    selectPincode srvSec.db "carol" = some "hash1" ∧
    verify_user_pincode vW srvSec "carol" "1234" = .ok (vW "1234" "hash1") :=
  ⟨by decide,
   (C9_pincode_verify vW srvW0 "bob" "1234").1 (by decide),
   by decide,
   (C9_pincode_verify vW srvSec "carol" "1234").2 "hash1" (by decide)⟩

/-- C10: removeUserState does not touch the session-local lock map, so for a
user whose lock association is recorded, removeUserState followed by
commitState does not fail with LockNotHeldError: the commit proceeds using
the remembered (now-deleted) userid instead of rejecting the stale
association. -/
theorem C10_remove_keeps_lock_map (srv : Server) (b : GAStateBackend)
    (user : String) (state : GAUserState) (uid : Nat)
    (h : locksLookup b.locks user = some uid) :
    (remove_user_state srv b user).2.locks = b.locks ∧
    (update_user_state (remove_user_state srv b user).1
        (remove_user_state srv b user).2 user state).2.2 = none := by
  refine ⟨rfl, ?_⟩
  have h2 : locksLookup ((remove_user_state srv b user).2).locks user = some uid := h
  rw [update_user_state_eq _ _ user state uid h2]

theorem C10_remove_keeps_lock_map_witness :
    locksLookup bW1.locks "alice" = some 1 ∧
    ((remove_user_state srvW1 bW1 "alice").2.locks = bW1.locks ∧
    (update_user_state (remove_user_state srvW1 bW1 "alice").1
        (remove_user_state srvW1 bW1 "alice").2 "alice" hW).2.2 = none) :=
  ⟨by decide, C10_remove_keeps_lock_map srvW1 bW1 "alice" hW 1 (by decide)⟩

end TotpCgi
